import Mathlib

/-!
# Verification of the Aura voice-trigger and safety-orchestration engine

A shallow embedding of the Project Aura personal-safety application:
the fuzzy trigger matcher and Levenshtein distance of
`useVoiceActivation`, the recognition-session lifecycle, the
`useAuraState` safety state machine and its `App.tsx` wiring, and the
`ApiService` alert/audio workflow together with the two Supabase edge
functions (`send-sos-alert`, `send-aura-alert`).

Strings are modelled as `List Char`; JavaScript string methods used by
the code (`toLowerCase`, `trim`, `includes`, `split(' ')`,
`replace(' ', '')`) are given executable counterparts below.
-/

namespace Aura

/-! ## JavaScript string primitives -/

/-- `s.toLowerCase()`. -/
def lower (s : List Char) : List Char := s.map Char.toLower

/-- `s.trim()`: strip whitespace from both ends. -/
def jsTrim (s : List Char) : List Char :=
  ((s.dropWhile Char.isWhitespace).reverse.dropWhile Char.isWhitespace).reverse

/-- Boolean prefix test on character lists. -/
def isPrefixB : List Char → List Char → Bool
  | [], _ => true
  | _ :: _, [] => false
  | p :: ps, h :: hs => p = h && isPrefixB ps hs

/-- `hay.includes(pat)`: substring containment. -/
def jsIncludes (hay pat : List Char) : Bool :=
  match hay with
  | [] => pat.isEmpty
  | _ :: t => isPrefixB pat hay || jsIncludes t pat

/-- `s.replace(' ', '')`: JavaScript `replace` with a string pattern
removes only the first occurrence. -/
def replaceFirstSpace : List Char → List Char
  | [] => []
  | c :: t => if c = ' ' then t else c :: replaceFirstSpace t

/-- `s.split(' ')`: split at every single space; adjacent separators
produce empty fields, and the result is never the empty list. -/
def splitOnSpace : List Char → List (List Char)
  | [] => [[]]
  | c :: t =>
    if c = ' ' then [] :: splitOnSpace t
    else
      match splitOnSpace t with
      | [] => [[c]]
      | w :: ws => (c :: w) :: ws

theorem isPrefixB_iff (p h : List Char) : isPrefixB p h = true ↔ p <+: h := by
  induction p generalizing h with
  | nil => simp [isPrefixB]
  | cons c ps ih =>
    cases h with
    | nil => simp [isPrefixB]
    | cons d hs => simp [isPrefixB, List.cons_prefix_cons, ih]

theorem jsIncludes_iff (h p : List Char) : jsIncludes h p = true ↔ p <:+: h := by
  induction h with
  | nil => simp [jsIncludes, List.isEmpty_iff]
  | cons c t ih => simp [jsIncludes, List.infix_cons_iff, isPrefixB_iff, ih]

/-! ## The Levenshtein distance of `useVoiceActivation.ts`

The source builds a DP matrix with `matrix[0][j] = j`, `matrix[i][0] = i`
and
`matrix[i][j] = min(matrix[i-1][j] + 1, matrix[i][j-1] + 1,
matrix[i-1][j-1] + (a[j-1] === b[i-1] ? 0 : 1))`,
returning `matrix[b.length][a.length]`, with early returns for empty
inputs.  We embed the matrix row by row: `rowStep` is the inner `j`
loop producing row `i` from row `i-1`, and `levGo` is the outer `i`
loop over the characters of `b`. -/

/-- Inner loop of the DP: given the previous row (tail `p0 :: p1 :: …`
aligned with the remaining characters of `a`), the current row value to
the left, and the row character `bc` of `b`, produce the rest of the
current row. -/
def rowStep (bc : Char) : List Char → List Nat → Nat → List Nat
  | [], _, _ => []
  | _ :: _, [], _ => []
  | _ :: _, [_], _ => []
  | ac :: arest, p0 :: p1 :: prest, left =>
    let v := min (p1 + 1) (min (left + 1) (p0 + (if ac = bc then 0 else 1)))
    v :: rowStep bc arest (p1 :: prest) v

/-- Outer loop of the DP: fold the characters of `b` over the rows,
starting each row `i` with its first-column entry `i`. -/
def levGo (a : List Char) : List Char → List Nat → Nat → List Nat
  | [], row, _ => row
  | bc :: brest, row, i => levGo a brest (i :: rowStep bc a row i) (i + 1)

/-- `levenshteinDistance(a, b)` from `useVoiceActivation.ts`. -/
def levenshteinDistance (a b : List Char) : Nat :=
  if a.isEmpty then b.length
  else if b.isEmpty then a.length
  else (levGo a b (List.range (a.length + 1)) 1).getLastD 0

/-- The classic Levenshtein distance (Mathlib's, with unit costs),
the reference the spec describes. -/
def levRef (xs ys : List Char) : Nat :=
  levenshtein Levenshtein.defaultCost xs ys

theorem levRef_nil_left (ys : List Char) : levRef [] ys = ys.length := by
  induction ys with
  | nil => simp [levRef]
  | cons y ys ih => simp [levRef, levenshtein_nil_cons] at ih ⊢; omega

theorem levRef_nil_right (xs : List Char) : levRef xs [] = xs.length := by
  induction xs with
  | nil => simp [levRef]
  | cons x xs ih => simp [levRef, levenshtein_cons_nil] at ih ⊢; omega

theorem levRef_cons_cons (x : Char) (xs : List Char) (y : Char) (ys : List Char) :
    levRef (x :: xs) (y :: ys) =
      min (1 + levRef xs (y :: ys))
        (min (1 + levRef (x :: xs) ys) ((if x = y then 0 else 1) + levRef xs ys)) := by
  simp [levRef, levenshtein_cons_cons]

/-- The row of reference distances: entry `k` is the distance from the
reversed prefix of `a` extended by its next `k + 1` characters to the
(reversed) processed prefix of `b`. -/
def refRow (dr brev : List Char) : List Char → List Nat
  | [] => []
  | c :: rest => levRef (c :: dr) brev :: refRow (c :: dr) brev rest

theorem rowStep_spec (bc : Char) :
    ∀ (rest dr bp : List Char),
      rowStep bc rest (levRef dr bp :: refRow dr bp rest) (levRef dr (bc :: bp)) =
        refRow dr (bc :: bp) rest := by
  intro rest
  induction rest with
  | nil => intro dr bp; rfl
  | cons ac rest2 ih =>
    intro dr bp
    have hv :
        min (levRef (ac :: dr) bp + 1)
            (min (levRef dr (bc :: bp) + 1)
              (levRef dr bp + (if ac = bc then 0 else 1))) =
          levRef (ac :: dr) (bc :: bp) := by
      rw [levRef_cons_cons]
      split <;> omega
    simp only [refRow, rowStep]
    rw [hv, ih]

theorem levGo_spec (a : List Char) :
    ∀ (bs bp : List Char),
      levGo a bs (levRef [] bp :: refRow [] bp a) (bp.length + 1) =
        levRef [] (bs.reverse ++ bp) :: refRow [] (bs.reverse ++ bp) a := by
  intro bs
  induction bs with
  | nil => intro bp; simp [levGo]
  | cons bc bs2 ih =>
    intro bp
    have hlen : bp.length + 1 = levRef [] (bc :: bp) := by
      rw [levRef_nil_left]; simp
    simp only [levGo]
    rw [hlen, rowStep_spec]
    have h4 : levRef [] (bc :: bp) + 1 = (bc :: bp).length + 1 := by
      rw [levRef_nil_left]
    rw [h4, ih (bc :: bp)]
    simp [List.reverse_cons, List.append_assoc]

theorem refRow_getLastD (brev : List Char) :
    ∀ (rest dr : List Char) (d : Nat),
      (refRow dr brev rest).getLastD d = levRef (rest.reverse ++ dr) brev ∨
        (rest = [] ∧ (refRow dr brev rest).getLastD d = d) := by
  intro rest
  induction rest with
  | nil => intro dr d; right; exact ⟨rfl, rfl⟩
  | cons ac rest2 ih =>
    intro dr d
    left
    simp only [refRow, List.getLastD_cons]
    rcases ih (ac :: dr) (levRef (ac :: dr) brev) with h | ⟨hrest, h⟩
    · rw [h]; simp [List.reverse_cons, List.append_assoc]
    · subst hrest; rw [h]; simp

theorem refRow_nil_right :
    ∀ (rest dr : List Char),
      refRow dr [] rest = (List.range rest.length).map (fun k => k + (dr.length + 1)) := by
  intro rest
  induction rest with
  | nil => intro dr; simp [refRow]
  | cons c rest2 ih =>
    intro dr
    rw [refRow, ih (c :: dr), levRef_nil_right]
    simp only [List.length_cons, List.range_succ_eq_map, List.map_cons, List.map_map]
    congr 1
    · simp
    · apply List.map_congr_left
      intro k _
      simp [Function.comp]
      omega

theorem range_eq_refRow (a : List Char) :
    List.range (a.length + 1) = levRef [] [] :: refRow [] [] a := by
  rw [refRow_nil_right a [], show levRef [] [] = 0 by simp [levRef]]
  rw [List.range_succ_eq_map]
  refine congrArg (List.cons 0) ?_
  apply List.map_congr_left
  intro k _
  simp

theorem levenshteinDistance_eq_rev (a b : List Char) :
    levenshteinDistance a b = levRef a.reverse b.reverse := by
  cases a with
  | nil => simp [levenshteinDistance, levRef_nil_left]
  | cons xa a2 =>
    cases b with
    | nil => simp [levenshteinDistance, levRef_nil_right]
    | cons yb b2 =>
      have hspec := levGo_spec (xa :: a2) (yb :: b2) []
      simp only [List.length_nil, List.append_nil, Nat.zero_add] at hspec
      show (levGo (xa :: a2) (yb :: b2) (List.range ((xa :: a2).length + 1)) 1).getLastD 0 = _
      rw [range_eq_refRow, hspec]
      simp only [List.getLastD_cons]
      rcases refRow_getLastD ((yb :: b2).reverse) (xa :: a2) []
          (levRef [] ((yb :: b2).reverse)) with h | ⟨hc, _⟩
      · rw [h]; simp
      · exact absurd hc (List.cons_ne_nil xa a2)

set_option maxHeartbeats 1600000 in
theorem levRef_snoc_snoc (x y : Char) :
    ∀ (a b : List Char),
      levRef (a ++ [x]) (b ++ [y]) =
        min (levRef a (b ++ [y]) + 1)
          (min (levRef (a ++ [x]) b + 1) (levRef a b + (if x = y then 0 else 1))) := by
  intro a
  induction a with
  | nil =>
    intro b
    induction b with
    | nil =>
      simp only [List.nil_append, levRef_cons_cons, levRef_nil_left, levRef_nil_right,
        List.length_cons, List.length_nil]
      split_ifs <;> omega
    | cons yb b2 ihb =>
      simp only [List.nil_append, List.cons_append, levRef_cons_cons, levRef_nil_left,
        levRef_nil_right, List.length_cons, List.length_append, List.length_nil] at ihb ⊢
      split_ifs at ihb ⊢ <;> omega
  | cons xa a2 iha =>
    intro b
    induction b with
    | nil =>
      have ha := iha []
      simp only [List.nil_append, List.cons_append, levRef_cons_cons, levRef_nil_left,
        levRef_nil_right, List.length_cons, List.length_append, List.length_nil] at ha ⊢
      split_ifs at ha ⊢ <;> omega
    | cons yb b2 ihb =>
      have h1 := iha (yb :: b2)
      have h2 := iha b2
      simp only [List.cons_append, levRef_cons_cons, levRef_nil_left, levRef_nil_right,
        List.length_cons, List.length_append, List.length_nil] at h1 h2 ihb ⊢
      rw [h1, h2, ihb]
      simp only [← min_add_add_right, ← min_add_add_left]
      simp only [add_assoc, add_comm, add_left_comm, min_assoc, min_comm, min_left_comm]

theorem levRef_reverse : ∀ (a b : List Char), levRef a.reverse b.reverse = levRef a b := by
  intro a
  induction a with
  | nil =>
    intro b
    simp [levRef_nil_left]
  | cons xa a2 iha =>
    intro b
    induction b with
    | nil =>
      simp [levRef_nil_right]
    | cons yb b2 ihb =>
      rw [List.reverse_cons, List.reverse_cons, levRef_snoc_snoc]
      rw [show b2.reverse ++ [yb] = (yb :: b2).reverse by simp,
        show a2.reverse ++ [xa] = (xa :: a2).reverse by simp]
      rw [iha (yb :: b2), ihb, iha b2, levRef_cons_cons]
      split_ifs <;> omega

/-- The DP of the source equals the classic Levenshtein distance. -/
theorem levenshteinDistance_correct (a b : List Char) :
    levenshteinDistance a b = levenshtein Levenshtein.defaultCost a b := by
  rw [levenshteinDistance_eq_rev, levRef_reverse]
  rfl

/-! ## The fuzzy trigger matcher of `recognition.onresult`

The source tests, on the normalized (lowercased, trimmed) transcript
`nt` and trigger `ng`:

```
nt.includes(ng) || nt.includes(ng.replace(' ', '')) ||
levenshteinDistance(nt, ng) <= 2 ||
nt.split(' ').some(word =>
  levenshteinDistance(word, 'help') <= 1 && nt.includes('aura') ||
  nt.includes('aurora'))
```

In JavaScript `&&` binds tighter than `||`, so the body of `some` is
`(levenshteinDistance(word, 'help') <= 1 && nt.includes('aura')) ||
nt.includes('aurora')`. -/

def helpWord : List Char := "help".toList

def auraWord : List Char := "aura".toList

def auroraWord : List Char := "aurora".toList

/-- The trigger phrase `App.tsx` passes to `useVoiceActivation`. -/
def appTriggerPhrase : List Char := "Help Aura".toList

/-- The trigger test of `recognition.onresult`, with the grouping that
JavaScript operator precedence actually produces. -/
def fuzzyMatches (transcript trigger : List Char) : Bool :=
  let nt := jsTrim (lower transcript)
  let ng := jsTrim (lower trigger)
  jsIncludes nt ng ||
  jsIncludes nt (replaceFirstSpace ng) ||
  decide (levenshteinDistance nt ng ≤ 2) ||
  (splitOnSpace nt).any fun w =>
    (decide (levenshteinDistance w helpWord ≤ 1) && jsIncludes nt auraWord) ||
    jsIncludes nt auroraWord

/-- Modelled from the spec: the fourth condition of §4.2 with the
grouping the spec prescribes, "(word within distance 1 of 'help') AND
(contains 'aura' OR contains 'aurora')". -/
def specCondition4 (nt : List Char) : Bool :=
  ((splitOnSpace nt).any fun w => decide (levenshteinDistance w helpWord ≤ 1)) &&
  (jsIncludes nt auraWord || jsIncludes nt auroraWord)

/-- Modelled from the spec: the §4.2 matcher, conditions 1-3 as in the
code and condition 4 grouped as the spec prescribes. -/
def specMatches (transcript trigger : List Char) : Bool :=
  let nt := jsTrim (lower transcript)
  let ng := jsTrim (lower trigger)
  jsIncludes nt ng ||
  jsIncludes nt (replaceFirstSpace ng) ||
  decide (levenshteinDistance nt ng ≤ 2) ||
  specCondition4 nt

/-! ## The recognition-session lifecycle of `useVoiceActivation`

The handlers of one `startListening` closure, as event steps over an
explicit session state.  The `enabled` and `permissionStatus`
parameters are the values captured by the closure.  Events carry the
(millisecond) time at which they are delivered:

* `result tr` - `recognition.onresult` with current transcript `tr`:
  if the fuzzy matcher fires, call `onActivate()`, call
  `recognition.stop()` and schedule `startListening` via
  `setTimeout(..., 1000)`;
* `ended` - the platform `end` event: `setIsListening(false)`, then
  `if (enabled && permissionStatus === 'granted') recognition.start()`;
* `timerFire` - a scheduled `setTimeout` callback:
  `if (enabled) startListening()`;
* `stopCall` - `stopListening()`: if the recognition ref is set,
  `recognition.stop()` and `setIsListening(false)`. -/

/-- State of the recognition session.  `starts` records the times of
every `recognition.start()` re-invocation (a restart), `timers` the
fire times of pending scheduled restarts. -/
structure RecState where
  refSet : Bool
  recActive : Bool
  isListening : Bool
  activations : Nat
  starts : List Nat
  timers : List Nat
  deriving DecidableEq, Repr

/-- Session state right after the initial `startListening` +
`onstart`: recognition object created and running. -/
def recInit : RecState :=
  { refSet := true, recActive := true, isListening := true,
    activations := 0, starts := [], timers := [] }

inductive RecEvent where
  | result (transcript : List Char)
  | ended
  | timerFire
  | stopCall
  deriving DecidableEq, Repr

/-- One event step of the `useVoiceActivation` handlers. -/
def recStep (enabled granted : Bool) (trigger : List Char)
    (s : RecState) (e : Nat × RecEvent) : RecState :=
  match e with
  | (t, .result tr) =>
    if fuzzyMatches tr trigger then
      { s with activations := s.activations + 1, recActive := false,
               timers := s.timers ++ [t + 1000] }
    else s
  | (t, .ended) =>
    let s1 := { s with isListening := false }
    if enabled && granted then
      { s1 with recActive := true, starts := s1.starts ++ [t] }
    else s1
  | (t, .timerFire) =>
    if s.timers.contains t then
      let s1 := { s with timers := s.timers.erase t }
      if enabled then
        { s1 with refSet := true, recActive := true, starts := s1.starts ++ [t] }
      else s1
    else s
  | (_, .stopCall) =>
    if s.refSet then { s with recActive := false, isListening := false } else s

/-- Run a timed event trace. -/
def recRun (enabled granted : Bool) (trigger : List Char)
    (events : List (Nat × RecEvent)) (s : RecState) : RecState :=
  events.foldl (recStep enabled granted trigger) s

/-! ## The safety state machine of `useAuraState` and its `App.tsx` wiring -/

/-- `AuraState` from `types/index.ts`. -/
inductive AuraState where
  | idle
  | active
  | alert
  | sosActive
  | emergencyVoice
  deriving DecidableEq, Repr

/-- The state owned by `useAuraState`. -/
structure AuraData where
  state : AuraState
  isListening : Bool
  transcription : List Char
  aiResponse : List Char
  sosResultSet : Bool
  deriving DecidableEq, Repr

def initialAuraData : AuraData :=
  { state := .idle, isListening := false, transcription := [],
    aiResponse := [], sosResultSet := false }

/-- `activateAura`. -/
def activateAura (d : AuraData) : AuraData :=
  { d with state := .active, isListening := true }

/-- `deactivateAura`. -/
def deactivateAura (d : AuraData) : AuraData :=
  { d with state := .idle, isListening := false, transcription := [],
           aiResponse := [] }

/-- `triggerAlert`. -/
def triggerAlert (d : AuraData) : AuraData :=
  { d with state := .alert }

/-- `triggerSOS`. -/
def triggerSOS (d : AuraData) : AuraData :=
  { d with state := .sosActive }

/-- `triggerEmergencyVoice`. -/
def triggerEmergencyVoice (d : AuraData) : AuraData :=
  { d with state := .emergencyVoice }

/-- `resetToIdle`. -/
def resetToIdle (d : AuraData) : AuraData :=
  { d with state := .idle, isListening := false, transcription := [],
           aiResponse := [], sosResultSet := false }

/-- `updateSOSResult`. -/
def updateSOSResult (d : AuraData) : AuraData :=
  { d with sosResultSet := true }

/-- The events through which the rendered `App.tsx` UI reaches the
`useAuraState` operations.  `handleAuraActivate` / `handleAuraDeactivate`
are defined in `App.tsx` but unreachable: the `AuraButton` that invoked
them was removed, so `activateAura`, `deactivateAura` and (because
`aura.isListening` never becomes `true`) `triggerAlert` are never
called. -/
inductive AppEvent where
  | voiceTrigger
  | emergencyVoicePress
  | endCall
  | allClear
  deriving DecidableEq, Repr

/-- The safety-event names of the §4.3 transition table. -/
inductive SafetyEvent where
  | activate
  | deactivate
  | threatDetected
  | sosTrigger
  | emergencyVoiceTrigger
  | resetEvt
  deriving DecidableEq, Repr

/-- Which §4.3 event each app event performs. -/
def eventLabel : AppEvent → SafetyEvent
  | .voiceTrigger => .sosTrigger
  | .emergencyVoicePress => .emergencyVoiceTrigger
  | .endCall => .resetEvt
  | .allClear => .resetEvt

/-- One `App.tsx` event: `voiceTrigger` is the voice-activation
callback running `handleSOSActivate` (`triggerSOS`, then
`updateSOSResult`); `emergencyVoicePress` is the emergency-voice button
(rendered only when the state is `idle`); `endCall` and `allClear`
invoke `resetToIdle`. -/
def appStep (d : AuraData) : AppEvent → AuraData
  | .voiceTrigger => updateSOSResult (triggerSOS d)
  | .emergencyVoicePress => if d.state = .idle then triggerEmergencyVoice d else d
  | .endCall => resetToIdle d
  | .allClear => resetToIdle d

/-- Run a sequence of app events from a state. -/
def appRun (d : AuraData) (es : List AppEvent) : AuraData :=
  es.foldl appStep d

/-- Modelled from the spec: the transition edges of the §4.3 table. -/
def specEdge : AuraState → SafetyEvent → AuraState → Bool
  | .idle, .activate, .active => true
  | .active, .deactivate, .idle => true
  | .active, .threatDetected, .alert => true
  | .idle, .sosTrigger, .sosActive => true
  | .active, .sosTrigger, .sosActive => true
  | .alert, .sosTrigger, .sosActive => true
  | .idle, .emergencyVoiceTrigger, .emergencyVoice => true
  | _, .resetEvt, .idle => true
  | _, _, _ => false

/-- The §4.3 edges plus the one extra edge the code actually has:
the voice trigger fires `sosTrigger` from `emergencyVoice` as well. -/
def amendedEdge (a : AuraState) (e : SafetyEvent) (b : AuraState) : Bool :=
  specEdge a e b ||
  (a = .emergencyVoice && e = .sosTrigger && b = .sosActive)

/-! ## `ApiService` (`apiService.ts`) and the Supabase edge functions -/

/-- `Location` from `types/index.ts` (coordinates as integers; no claim
depends on fractional coordinates). -/
structure Location where
  latitude : Int
  longitude : Int
  deriving DecidableEq, Repr

structure EmergencyContact where
  id : String
  name : String
  phoneNumber : String
  deriving DecidableEq, Repr

/-- The `data` payload the SOS responses populate. -/
structure ApiResponseData where
  contactsNotified : Int
  location : Option Location
  timestamp : String
  deriving DecidableEq, Repr

/-- `ApiResponse` from `types/index.ts`: `success`, optional `message`
(always set on the paths modelled here), optional `data`. -/
structure ApiResponse where
  success : Bool
  message : String
  data : Option ApiResponseData
  deriving DecidableEq, Repr

structure SupabaseConfig where
  url : String
  anonKey : String
  deriving DecidableEq, Repr

/-- The configuration check of `triggerSmsAlert` / `triggerSOSAlert`:
`!SUPABASE_URL || SUPABASE_URL === 'your-supabase-url' ||
!SUPABASE_ANON_KEY || SUPABASE_ANON_KEY === 'your-supabase-anon-key'`
(an empty string is falsy). -/
def supabaseUnconfigured (c : SupabaseConfig) : Bool :=
  c.url = "" || c.url = "your-supabase-url" ||
  c.anonKey = "" || c.anonKey = "your-supabase-anon-key"

structure BackendProfile where
  name : String
  contacts : List EmergencyContact

/-- Environment of an edge-function run: the fetched profile (`none`
models a fetch error or missing profile), Twilio configuration, the
per-contact Twilio send outcome, and the server clock. -/
structure BackendEnv where
  profile : Option BackendProfile
  twilioConfigured : Bool
  smsSent : Nat → Bool
  timestamp : String

structure BackendResp where
  status : Nat
  body : ApiResponse

/-- How many of the first `n` per-contact sends succeeded. -/
def sentCount (env : BackendEnv) (n : Nat) : Nat :=
  ((List.range n).filter fun i => env.smsSent i).length

/-- The `send-sos-alert` edge function (`part_002`): guards for missing
user id / profile / contacts / Twilio config, then one Twilio send per
contact; the 200 body carries `contactsNotified` = number of successful
sends. -/
def sendSOSAlertBackend (userId : String) (loc : Location) (env : BackendEnv) :
    BackendResp :=
  if userId = "" then
    ⟨400, { success := false, message := "User ID is required", data := none }⟩
  else
    match env.profile with
    | none => ⟨404, { success := false, message := "User profile not found", data := none }⟩
    | some p =>
      if p.contacts.length = 0 then
        ⟨400, { success := false, message := "No emergency contacts found", data := none }⟩
      else if ¬ env.twilioConfigured then
        ⟨500, { success := false, message := "SMS service not configured", data := none }⟩
      else
        let successCount := sentCount env p.contacts.length
        ⟨200,
          { success := decide (0 < successCount),
            message := "Critical SOS alert sent to " ++ toString successCount ++ "/" ++
              toString p.contacts.length ++ " contacts",
            data := some { contactsNotified := (successCount : Int), location := some loc,
                           timestamp := env.timestamp } }⟩

/-- The `send-aura-alert` edge function (`part_003`): same guards and
per-contact sends; its 200 body carries no `contactsNotified` field. -/
def sendAuraAlertBackend (userId : String) (_loc : Location) (env : BackendEnv) :
    BackendResp :=
  if userId = "" then
    ⟨400, { success := false, message := "User ID is required", data := none }⟩
  else
    match env.profile with
    | none => ⟨404, { success := false, message := "User profile not found", data := none }⟩
    | some p =>
      if p.contacts.length = 0 then
        ⟨400, { success := false, message := "No emergency contacts found", data := none }⟩
      else if ¬ env.twilioConfigured then
        ⟨500, { success := false, message := "SMS service not configured", data := none }⟩
      else
        let successCount := sentCount env p.contacts.length
        ⟨200,
          { success := decide (0 < successCount),
            message := "Emergency alert sent to " ++ toString successCount ++ "/" ++
              toString p.contacts.length ++ " contacts",
            data := none }⟩

/-- `response.ok`: HTTP status in the 200-299 range. -/
def respOk (r : BackendResp) : Bool :=
  decide (200 ≤ r.status) && decide (r.status < 300)

/-- Mock returned by `triggerSOSAlert` when Supabase is unconfigured. -/
def mockSOSUnconfigured (loc : Location) (now : String) : ApiResponse :=
  { success := true,
    message := "Critical SOS alert sent successfully (mock response - Supabase not configured)",
    data := some { contactsNotified := 3, location := some loc, timestamp := now } }

/-- Mock returned by the `catch` of `triggerSOSAlert`. -/
def mockSOSCatch (loc : Location) (now : String) : ApiResponse :=
  { success := true,
    message := "Critical SOS alert sent successfully (mock response)",
    data := some { contactsNotified := 3, location := some loc, timestamp := now } }

/-- Mock returned by `triggerSmsAlert` when Supabase is unconfigured. -/
def mockSmsUnconfigured : ApiResponse :=
  { success := true,
    message := "Emergency alert sent successfully (mock response - Supabase not configured)",
    data := none }

/-- Mock returned by the `catch` of `triggerSmsAlert`. -/
def mockSmsCatch : ApiResponse :=
  { success := true,
    message := "Emergency alert sent successfully (mock response)",
    data := none }

/-- `ApiService.triggerSOSAlert`.  `fetchOutcome` is the outcome of the
`fetch` (`Except.error` models the collaborator throwing); a non-ok
response throws inside the `try` and is caught.  Every path returns an
`ApiResponse`: the function never raises to its caller. -/
def triggerSOSAlert (cfg : SupabaseConfig) (loc : Location) (now : String)
    (fetchOutcome : Except String BackendResp) : ApiResponse :=
  if supabaseUnconfigured cfg then mockSOSUnconfigured loc now
  else
    match fetchOutcome with
    | .error _ => mockSOSCatch loc now
    | .ok resp => if respOk resp then resp.body else mockSOSCatch loc now

/-- `ApiService.triggerSmsAlert`, same shape as `triggerSOSAlert`. -/
def triggerSmsAlert (cfg : SupabaseConfig)
    (fetchOutcome : Except String BackendResp) : ApiResponse :=
  if supabaseUnconfigured cfg then mockSmsUnconfigured
  else
    match fetchOutcome with
    | .error _ => mockSmsCatch
    | .ok resp => if respOk resp then resp.body else mockSmsCatch

/-- `triggerSOSAlert` composed with the actual edge function;
`networkOk = false` models the `fetch` itself throwing. -/
def sosDispatch (cfg : SupabaseConfig) (userId : String) (loc : Location)
    (now : String) (env : BackendEnv) (networkOk : Bool) : ApiResponse :=
  triggerSOSAlert cfg loc now
    (if networkOk then .ok (sendSOSAlertBackend userId loc env) else .error "Failed to fetch")

/-- `triggerSmsAlert` composed with the actual edge function. -/
def smsDispatch (cfg : SupabaseConfig) (userId : String) (loc : Location)
    (env : BackendEnv) (networkOk : Bool) : ApiResponse :=
  triggerSmsAlert cfg
    (if networkOk then .ok (sendAuraAlertBackend userId loc env) else .error "Failed to fetch")

/-! ## Threat detection and the audio workflow -/

/-- The keyword list of `ApiService.detectThreat`. -/
def threatKeywords : List (List Char) :=
  ["help me".toList, "help".toList, "go away".toList, "leave me alone".toList,
   "stop".toList, "no".toList, "scared".toList, "afraid".toList,
   "uncomfortable".toList, "threatening".toList, "following".toList,
   "emergency".toList, "call police".toList, "danger".toList, "unsafe".toList]

/-- `ApiService.detectThreat`: lowercase the transcript and test
substring containment of each keyword. -/
def detectThreat (transcribedText : List Char) : Bool :=
  threatKeywords.any fun kw => jsIncludes (lower transcribedText) kw

/-- The apostrophe character (code 39). -/
def apos : Char := Char.ofNat 39

/-- The fixed fallback transcript of `transcribeAudio`:
"Someone is talking to me and I'm not sure about their intentions." -/
def fallbackTranscript : List Char :=
  "Someone is talking to me and I".toList ++ [apos] ++
    "m not sure about their intentions.".toList

/-- `ApiService.transcribeAudio`: the `catch` substitutes the fixed
fallback transcript. -/
def transcribeAudio (outcome : Except String (List Char)) : List Char :=
  match outcome with
  | .ok t => t
  | .error _ => fallbackTranscript

/-- Canned assertive-mode response of `getAIResponse`. -/
def assertiveFallback : List Char :=
  "This call is being monitored and recorded. The user".toList ++ [apos] ++
    "s location has been shared with emergency services. Please step away immediately.".toList

/-- Canned calm-mode response of `getAIResponse`. -/
def calmFallback : List Char :=
  "Hey, what".toList ++ [apos] ++ "s going on? Are you okay? Can you describe what".toList ++
    [apos] ++ "s happening?".toList

/-- `ApiService.getAIResponse`: the `catch` substitutes the canned
response for the current mode. -/
def getAIResponse (isAssertiveMode : Bool) (outcome : Except String (List Char)) :
    List Char :=
  match outcome with
  | .ok r => r
  | .error _ => if isAssertiveMode then assertiveFallback else calmFallback

/-- `AudioProcessingResult` from `types/index.ts`. -/
structure AudioProcessingResult where
  transcription : List Char
  threat_detected : Bool
  ai_response : List Char
  deriving DecidableEq, Repr

/-- `ApiService.processAudioWorkflow`: transcribe (with fallback),
detect threat, get the AI response (with fallback). -/
def processAudioWorkflow (transcribeOutcome aiOutcome : Except String (List Char)) :
    AudioProcessingResult :=
  let transcription := transcribeAudio transcribeOutcome
  let threatDetected := detectThreat transcription
  let aiResponse := getAIResponse threatDetected aiOutcome
  { transcription := transcription, threat_detected := threatDetected,
    ai_response := aiResponse }

/-! ## The `App.tsx` alert workflows -/

/-- Result of one `handleSOSActivate` run: whether `triggerSOS` fired,
what was dispatched to `triggerSOSAlert` (if anything), the recorded
`sosAlertResult`, and the final view. -/
structure SOSRunResult where
  sosStateTriggered : Bool
  dispatched : Option (String × Location)
  recorded : Option ApiResponse
  finalView : String
  deriving DecidableEq, Repr

/-- `App.handleSOSActivate`: `triggerSOS` immediately; await the
location; on success dispatch the SOS alert and record its result; a
location failure rejects inside the `try`, so the `catch` records a
failure result and no dispatch happens. -/
def handleSOSActivate (cfg : SupabaseConfig) (userId : String) (now : String)
    (locOutcome : Except String Location) (env : BackendEnv) (networkOk : Bool) :
    SOSRunResult :=
  match locOutcome with
  | .ok loc =>
    { sosStateTriggered := true,
      dispatched := some (userId, loc),
      recorded := some (sosDispatch cfg userId loc now env networkOk),
      finalView := "sos-confirmation" }
  | .error _ =>
    { sosStateTriggered := true,
      dispatched := none,
      recorded := some
        { success := false,
          message := "Error sending alert, but emergency contacts may have been notified",
          data := some { contactsNotified := 0, location := none, timestamp := now } },
      finalView := "sos-confirmation" }

/-- The threat branch of `processAudio` in `App.tsx`: await the
location; on failure substitute `{latitude: 0, longitude: 0}`; dispatch
the SMS alert either way. -/
def threatAlertDispatch (userId : String) (locOutcome : Except String Location) :
    Option (String × Location) :=
  match locOutcome with
  | .ok loc => some (userId, loc)
  | .error _ => some (userId, { latitude := 0, longitude := 0 })

/-- `ApiService.playAudioResponse`: `generateSpeech` never throws (its
own `catch` returns an empty blob), so the result is a blob of
`blobSize` bytes.  When the blob is nonempty it is played through an
audio element; if that playback errors (`audio.onerror`), the `catch`
of `playAudioResponse` rethrows ("Fallback to text display").  When the
blob is empty, the browser speech-synthesis fallback runs and nothing
throws. -/
def playAudioResponse (blobSize : Nat) (playFails : Bool) : Except String Unit :=
  if 0 < blobSize then
    if playFails then .error "Error playing audio response" else .ok ()
  else .ok ()

/-- `processAudio` in `App.tsx`: run the audio workflow, then
`await apiService.playAudioResponse(result.ai_response)`, and only
afterwards the threat branch: when `threat_detected` is set,
`triggerAlert` fires and the SMS alert path runs with its location
fallback.  A rethrown playback error lands in the outer `catch`, so
the threat branch is skipped entirely.  Returns what was dispatched. -/
def processAudioRun (userId : String)
    (transcribeOutcome aiOutcome : Except String (List Char))
    (blobSize : Nat) (playFails : Bool)
    (locOutcome : Except String Location) : Option (String × Location) :=
  let result := processAudioWorkflow transcribeOutcome aiOutcome
  match playAudioResponse blobSize playFails with
  | .error _ => none
  | .ok _ =>
    if result.threat_detected then threatAlertDispatch userId locOutcome else none

/-! ## Helper lemmas for the alert-dispatch results -/

theorem sentCount_le (env : BackendEnv) (n : Nat) : sentCount env n ≤ n := by
  have h := List.length_filter_le (fun i => env.smsSent i) (List.range n)
  simpa using h

/-- Every `data` payload a composed SOS dispatch can produce: either a
mock placeholder (`contactsNotified = 3`) or the backend count. -/
theorem sosDispatch_data (cfg : SupabaseConfig) (userId : String) (loc : Location)
    (now : String) (env : BackendEnv) (networkOk : Bool) (d : ApiResponseData)
    (hd : (sosDispatch cfg userId loc now env networkOk).data = some d) :
    d.contactsNotified = 3 ∨
      ∃ p, env.profile = some p ∧
        d.contactsNotified = (sentCount env p.contacts.length : Int) := by
  by_cases hcfg : supabaseUnconfigured cfg = true
  · simp [sosDispatch, triggerSOSAlert, hcfg, mockSOSUnconfigured] at hd
    left
    rw [← hd]
  · cases networkOk with
    | false =>
      simp [sosDispatch, triggerSOSAlert, hcfg, mockSOSCatch] at hd
      left
      rw [← hd]
    | true =>
      by_cases huid : userId = ""
      · simp [sosDispatch, triggerSOSAlert, hcfg, sendSOSAlertBackend, huid, respOk,
          mockSOSCatch] at hd
        left
        rw [← hd]
      · cases hp : env.profile with
        | none =>
          simp [sosDispatch, triggerSOSAlert, hcfg, sendSOSAlertBackend, huid, hp, respOk,
            mockSOSCatch] at hd
          left
          rw [← hd]
        | some p =>
          by_cases hc0 : p.contacts.length = 0
          · simp [sosDispatch, triggerSOSAlert, hcfg, sendSOSAlertBackend, huid, hp, hc0,
              respOk, mockSOSCatch] at hd
            left
            rw [← hd]
          · by_cases htw : env.twilioConfigured = true
            · simp [sosDispatch, triggerSOSAlert, hcfg, sendSOSAlertBackend, huid, hp, hc0,
                htw, respOk] at hd
              right
              exact ⟨p, rfl, by rw [← hd]⟩
            · simp [sosDispatch, triggerSOSAlert, hcfg, sendSOSAlertBackend, huid, hp, hc0,
                htw, respOk, mockSOSCatch] at hd
              left
              rw [← hd]

/-! ## Claim theorems -/

set_option maxRecDepth 100000 in
/-- C1, counterexample: a transcript that contains "aurora" but no word
within edit distance 1 of "help" (and satisfies none of conditions 1-3)
is matched by the code, while the matcher the spec describes (condition
4 grouped as "(help-word) AND (aura OR aurora)") rejects it.  The
claimed if-and-only-if is therefore false at this input. -/
theorem C1_counterexample :
    fuzzyMatches "aurora borealis is lovely tonight".toList appTriggerPhrase = true ∧
    specMatches "aurora borealis is lovely tonight".toList appTriggerPhrase = false := by
  decide

theorem splitOnSpace_ne_nil (s : List Char) : splitOnSpace s ≠ [] := by
  cases s with
  | nil => simp [splitOnSpace]
  | cons c t =>
    simp only [splitOnSpace]
    split
    · simp
    · split <;> simp

theorem exists_mem_or_const {α : Type} (l : List α) (hl : l ≠ []) (P : α → Prop)
    (C : Prop) : (∃ w ∈ l, (P w ∨ C)) ↔ (∃ w ∈ l, P w) ∨ C := by
  constructor
  · rintro ⟨w, hw, hP | hC⟩
    · exact Or.inl ⟨w, hw, hP⟩
    · exact Or.inr hC
  · rintro (⟨w, hw, hP⟩ | hC)
    · exact ⟨w, hw, Or.inl hP⟩
    · obtain ⟨w, hw⟩ := List.exists_mem_of_ne_nil l hl
      exact ⟨w, hw, Or.inr hC⟩

/-- C1, amended: the matcher returns true iff one of conditions 1-3
holds, or condition 4 grouped as JavaScript precedence dictates:
"((word within edit distance 1 of 'help') AND (contains 'aura')) OR
(contains 'aurora')"; in particular every transcript containing
"aurora" matches. -/
theorem C1_matcher_amended (transcript trigger : List Char) :
    fuzzyMatches transcript trigger = true ↔
      (jsTrim (lower trigger) <:+: jsTrim (lower transcript) ∨
       replaceFirstSpace (jsTrim (lower trigger)) <:+: jsTrim (lower transcript) ∨
       levenshteinDistance (jsTrim (lower transcript)) (jsTrim (lower trigger)) ≤ 2 ∨
       ((∃ w ∈ splitOnSpace (jsTrim (lower transcript)),
           levenshteinDistance w helpWord ≤ 1 ∧
             auraWord <:+: jsTrim (lower transcript)) ∨
         auroraWord <:+: jsTrim (lower transcript))) := by
  simp only [fuzzyMatches, Bool.or_eq_true, Bool.and_eq_true, List.any_eq_true,
    decide_eq_true_iff, jsIncludes_iff]
  rw [exists_mem_or_const _ (splitOnSpace_ne_nil _), or_assoc, or_assoc]

set_option maxRecDepth 100000 in
/-- C2: evaluation of the recognition-session code at a detected
trigger (`enabled = true`, permission granted).  The activation
callback runs once and the session is stopped, but the `onend` handler
restarts the session immediately at time 0 — before the 1000 ms
cooldown — and the cooldown timer then starts a second session at time
1000: two restarts, one of them before the cooldown elapses, against
the claimed "no restart before the cooldown, exactly one after". -/
theorem C2_restart_before_cooldown :
    (recRun true true appTriggerPhrase [(0, .result "Help Aura".toList)] recInit).activations
        = 1 ∧
    (recRun true true appTriggerPhrase [(0, .result "Help Aura".toList)] recInit).recActive
        = false ∧
    (recRun true true appTriggerPhrase
        [(0, .result "Help Aura".toList), (0, .ended), (1000, .timerFire)] recInit).starts
        = [0, 1000] ∧
    ((recRun true true appTriggerPhrase
        [(0, .result "Help Aura".toList), (0, .ended), (1000, .timerFire)] recInit).starts.any
      fun t => decide (t < 1000)) = true := by
  decide

/-- C3, counterexample: from `Idle`, pressing the emergency-voice
button reaches `EmergencyVoice`; a voice trigger there runs
`handleSOSActivate`, whose unguarded `triggerSOS` moves
`EmergencyVoice → SOSActive` — an edge outside the §4.3 table
(`sosTrigger` is only allowed from Idle/Active/Alert). -/
theorem C3_counterexample :
    (appRun initialAuraData [.emergencyVoicePress]).state = AuraState.emergencyVoice ∧
    (appRun initialAuraData [.emergencyVoicePress, .voiceTrigger]).state
        = AuraState.sosActive ∧
    specEdge AuraState.emergencyVoice (eventLabel AppEvent.voiceTrigger)
        AuraState.sosActive = false := by
  decide

/-- C3, amended: every state change produced by a reachable `App.tsx`
event lies in the §4.3 edge set extended with the single extra edge
`EmergencyVoice --sosTrigger--> SOSActive` (the voice trigger is not
guarded by the current state). -/
theorem C3_transitions_amended (d : AuraData) (e : AppEvent)
    (h : (appStep d e).state ≠ d.state) :
    amendedEdge d.state (eventLabel e) (appStep d e).state = true := by
  obtain ⟨st, listening, tr, ai, sos⟩ := d
  cases e <;> cases st <;>
    simp_all [appStep, eventLabel, amendedEdge, specEdge, triggerSOS, updateSOSResult,
      triggerEmergencyVoice, resetToIdle]

/-- Witness for `C3_transitions_amended` at a concrete input. -/
theorem C3_transitions_amended_witness :
    amendedEdge initialAuraData.state (eventLabel AppEvent.voiceTrigger)
      (appStep initialAuraData AppEvent.voiceTrigger).state = true :=
  C3_transitions_amended initialAuraData AppEvent.voiceTrigger (by decide)

/-- C9: evaluation of `stopListening` at the failing input (feature
enabled, permission granted).  After `stop()` the platform `end` event
fires and the `onend` handler — despite its own comment "Restart if
still enabled and not manually stopped" — restarts the session, so the
session is active again rather than `Stopped`; the second `stop()`
repeats the cycle, producing a second restart (a duplicate side
effect). -/
theorem C9_stop_not_idempotent :
    (recRun true true appTriggerPhrase [(0, .stopCall), (0, .ended)] recInit).recActive
        = true ∧
    (recRun true true appTriggerPhrase
        [(0, .stopCall), (0, .ended), (5, .stopCall), (5, .ended)] recInit).starts
        = [0, 5] := by
  decide

/-- The default `SupabaseConfig` when no environment variables are set
(`'your-supabase-url'` / `'your-supabase-anon-key'` placeholders). -/
def placeholderConfig : SupabaseConfig :=
  { url := "your-supabase-url", anonKey := "your-supabase-anon-key" }

/-- A backend environment whose user has exactly one configured
emergency contact, with Twilio working. -/
def oneContactEnv : BackendEnv :=
  { profile := some ⟨"User", [⟨"1", "Mom", "555"⟩]⟩,
    twilioConfigured := true, smsSent := fun _ => true, timestamp := "t" }

/-- C4, counterexample: with one configured emergency contact and
Supabase unconfigured, the SOS dispatch returns the mock result with
`contactsNotified = 3`, exceeding the configured contact count 1. -/
theorem C4_counterexample :
    ((sosDispatch placeholderConfig "user-1" { latitude := 1, longitude := 2 } "t"
        oneContactEnv true).data.map fun d => d.contactsNotified) = some 3 ∧
    (oneContactEnv.profile.map fun p => p.contacts.length) = some 1 ∧
    ¬ ((3 : Int) ≤ 1) := by
  refine ⟨by decide, by decide, by decide⟩

/-- C4, amended: `contactsNotified` is never negative; a
backend-delivered result never exceeds the configured contact count,
but the degraded mock paths return the fixed placeholder 3, which can
exceed the configured count. -/
theorem C4_contacts_bound (cfg : SupabaseConfig) (userId : String) (loc : Location)
    (now : String) (env : BackendEnv) (networkOk : Bool) (d : ApiResponseData)
    (hd : (sosDispatch cfg userId loc now env networkOk).data = some d) :
    0 ≤ d.contactsNotified ∧
      (d.contactsNotified = 3 ∨
        ∃ p, env.profile = some p ∧ d.contactsNotified ≤ (p.contacts.length : Int)) := by
  rcases sosDispatch_data cfg userId loc now env networkOk d hd with h3 | ⟨p, hp, hcnt⟩
  · rw [h3]
    exact ⟨by decide, Or.inl rfl⟩
  · constructor
    · rw [hcnt]
      exact Int.natCast_nonneg _
    · refine Or.inr ⟨p, hp, ?_⟩
      rw [hcnt]
      exact_mod_cast sentCount_le env p.contacts.length

/-- Witness for `C4_contacts_bound` at a concrete input. -/
theorem C4_contacts_bound_witness :
    0 ≤ (ApiResponseData.mk 3 (some { latitude := 1, longitude := 2 }) "t").contactsNotified ∧
      ((ApiResponseData.mk 3 (some { latitude := 1, longitude := 2 }) "t").contactsNotified = 3 ∨
        ∃ p, oneContactEnv.profile = some p ∧
          (ApiResponseData.mk 3 (some { latitude := 1, longitude := 2 }) "t").contactsNotified
            ≤ (p.contacts.length : Int)) :=
  C4_contacts_bound placeholderConfig "user-1" { latitude := 1, longitude := 2 } "t"
    oneContactEnv true (ApiResponseData.mk 3 (some { latitude := 1, longitude := 2 }) "t") rfl

/-- C5: alert dispatch never raises — both triggers are total over
every collaborator outcome, including a thrown `fetch`
(`networkOk = false`) and an unconfigured backend, always returning an
`ApiResponse` whose `success` field is set; on the thrown-collaborator
path `success` is `true` (degraded success) and every
`contactsNotified` the SOS dispatch ever reports is nonnegative. -/
theorem C5_dispatch_never_raises (cfg : SupabaseConfig) (userId : String)
    (loc : Location) (now : String) (env : BackendEnv) (networkOk : Bool) :
    (∀ d, (sosDispatch cfg userId loc now env networkOk).data = some d →
        0 ≤ d.contactsNotified) ∧
    (sosDispatch cfg userId loc now env false).success = true ∧
    (smsDispatch cfg userId loc env false).success = true := by
  refine ⟨fun d hd => ?_, ?_, ?_⟩
  · rcases sosDispatch_data cfg userId loc now env networkOk d hd with h3 | ⟨_, _, hcnt⟩
    · rw [h3]; decide
    · rw [hcnt]; exact Int.natCast_nonneg _
  · by_cases hcfg : supabaseUnconfigured cfg = true <;>
      simp [sosDispatch, triggerSOSAlert, hcfg, mockSOSUnconfigured, mockSOSCatch]
  · by_cases hcfg : supabaseUnconfigured cfg = true <;>
      simp [smsDispatch, triggerSmsAlert, hcfg, mockSmsUnconfigured, mockSmsCatch]

/-- Witness for `C5_dispatch_never_raises` at a concrete input. -/
theorem C5_dispatch_never_raises_witness :
    (∀ d, (sosDispatch placeholderConfig "user-1" { latitude := 1, longitude := 2 } "t"
        oneContactEnv false).data = some d → 0 ≤ d.contactsNotified) ∧
    (sosDispatch placeholderConfig "user-1" { latitude := 1, longitude := 2 } "t"
        oneContactEnv false).success = true ∧
    (smsDispatch placeholderConfig "user-1" { latitude := 1, longitude := 2 }
        oneContactEnv false).success = true :=
  C5_dispatch_never_raises placeholderConfig "user-1" { latitude := 1, longitude := 2 } "t"
    oneContactEnv false

/-- C6, counterexample: on the SOS path a location failure does not
fall back to `{0, 0}` — no alert is dispatched at all (`handleSOSActivate`
awaits the location inside its `try`, so the rejection jumps to the
`catch`, which only records a failure result). -/
theorem C6_counterexample :
    (handleSOSActivate placeholderConfig "user-1" "t"
        (.error "Location request timed out") oneContactEnv true).dispatched = none := by
  rfl

/-- C6, amended: on the threat-detected path a location failure
substitutes the sentinel `{latitude: 0, longitude: 0}` and SMS dispatch
proceeds; on the SOS path a location failure skips dispatch entirely
and records a failed `AlertResult` (`success = false`,
`contactsNotified = 0`). -/
theorem C6_location_fallback (userId : String) (e : String) (cfg : SupabaseConfig)
    (now : String) (env : BackendEnv) (networkOk : Bool) :
    threatAlertDispatch userId (.error e)
        = some (userId, { latitude := 0, longitude := 0 }) ∧
    (∀ loc, threatAlertDispatch userId (.ok loc) = some (userId, loc)) ∧
    (handleSOSActivate cfg userId now (.error e) env networkOk).dispatched = none ∧
    (handleSOSActivate cfg userId now (.error e) env networkOk).recorded =
      some { success := false,
             message := "Error sending alert, but emergency contacts may have been notified",
             data := some { contactsNotified := 0, location := none, timestamp := now } } :=
  ⟨rfl, fun _ => rfl, rfl, rfl⟩

/-- C7: the source `levenshteinDistance` computes the classic unit-cost
edit distance (Mathlib's `levenshtein` with `defaultCost`) on every
pair of inputs, and `levenshteinDistance("kitten", "sitting") = 3`.
(It is a pure function of its two arguments, hence deterministic.) -/
theorem C7_levenshtein :
    (∀ a b : List Char, levenshteinDistance a b = levenshtein Levenshtein.defaultCost a b) ∧
    levenshteinDistance "kitten".toList "sitting".toList = 3 :=
  ⟨levenshteinDistance_correct, by decide⟩

set_option maxRecDepth 100000 in
/-- C8: `detectThreat` returns true exactly when the lowercased
transcript contains one of the configured keywords as a substring, and
the two reference examples behave as specified. -/
theorem C8_detectThreat :
    (∀ s : List Char, detectThreat s = true ↔
        ∃ kw ∈ threatKeywords, kw <:+: lower s) ∧
    detectThreat "please stop following me".toList = true ∧
    detectThreat "what a nice day".toList = false := by
  refine ⟨fun s => ?_, by decide, by decide⟩
  simp [detectThreat, List.any_eq_true, jsIncludes_iff]

set_option maxRecDepth 100000 in
/-- C10, counterexample: a run with failed transcription does report
`threat_detected = true`, but when the awaited playback of the AI
response throws (nonempty audio blob whose playback errors, rethrown
by `playAudioResponse`), the outer `catch` of `processAudio` is
reached before the threat branch and no alert is dispatched — the
claimed "thus drives the alert-dispatch path" fails at this input. -/
theorem C10_counterexample :
    (processAudioWorkflow (.error "Transcription failed")
        (.ok "okay".toList)).threat_detected = true ∧
    processAudioRun "user-1" (.error "Transcription failed") (.ok "okay".toList)
        1 true (.ok { latitude := 1, longitude := 2 }) = none := by
  refine ⟨by decide, rfl⟩

set_option maxRecDepth 100000 in
/-- C10, amended: whenever transcription fails, the pipeline
substitutes the fixed fallback transcript and (the keyword "no" occurs
inside "not") reports `threat_detected = true`; the alert-dispatch
path then runs provided the awaited response playback does not throw —
playback completing normally, or falling back to browser speech
synthesis on an empty blob, leads to dispatch, while a rethrown
playback error aborts the effect and skips dispatch. -/
theorem C10_fallback_transcript_threat (e : String)
    (aiOutcome : Except String (List Char)) (userId : String)
    (blobSize : Nat) (locOutcome : Except String Location) :
    (processAudioWorkflow (.error e) aiOutcome).transcription = fallbackTranscript ∧
    (processAudioWorkflow (.error e) aiOutcome).threat_detected = true ∧
    (processAudioRun userId (.error e) aiOutcome blobSize false locOutcome).isSome
        = true ∧
    (∀ playFails : Bool,
      (processAudioRun userId (.error e) aiOutcome 0 playFails locOutcome).isSome
        = true) ∧
    processAudioRun userId (.error e) aiOutcome (blobSize + 1) true locOutcome
        = none := by
  have hth : detectThreat fallbackTranscript = true := by decide
  have hth2 : (processAudioWorkflow (.error e) aiOutcome).threat_detected = true := hth
  refine ⟨rfl, hth, ?_, ?_, ?_⟩
  · have hp : playAudioResponse blobSize false = Except.ok () := by
      unfold playAudioResponse
      split <;> rfl
    simp only [processAudioRun, hp, hth2, if_true]
    cases locOutcome <;> rfl
  · intro playFails
    have hp : playAudioResponse 0 playFails = Except.ok () := rfl
    simp only [processAudioRun, hp, hth2, if_true]
    cases locOutcome <;> rfl
  · have hp : playAudioResponse (blobSize + 1) true =
        Except.error "Error playing audio response" := by
      unfold playAudioResponse
      rw [if_pos (show 0 < blobSize + 1 by omega)]
      rfl
    simp only [processAudioRun, hp]

end Aura
